import Mathlib

/-!
Verification development for the PdfParser repository.

The definitions below are a shallow embedding of the Rust sources:

* `src/util.rs`                             — byte classification predicates
* `src/pdf_doc/pdf_file/file_reader.rs`     — the byte reader (`PdfFileReader`)
* `src/pdf_doc/pdf_file/pdf_file.rs`        — the object parser (`parse_object_at`,
  `flush_buffer_to_object`, `make_*_from_object_buffer`, `make_stream_object`),
  the cross-reference loader (`find_xref_start_and_type`,
  `process_standard_xref_table`, `get_standard_trailer`, `process_xref_stream`,
  `create_pdf_from_file`)
* `src/pdf_doc/pdf_file/decode.rs`          — the ASCII85 filter
  (`Ascii85Iterator::next`, `Filter::_parse_ascii_85_group`, `Filter::apply_ascii_85`)
* `src/pdf_doc/pdf_objects/pdf_objects.rs`  — the object model (`PdfObject`,
  accessors `is_int`, `try_into_int`, `try_to_index`, …, `PdfObjectReference::get`)
* `src/pdf_doc/pdf_file/object_cache.rs`    — the resolver
  (`ObjectCache::retrieve_object_by_ref`, `ObjectStreamCache`)
* `src/pdf_doc/page.rs`                     — `Page::contents_as_binary`

Bytes are modelled as `Nat` (values < 256 on all inputs of interest), Rust
`Vec<u8>` as `List Nat`, `HashMap` as association lists with HashMap lookup
semantics, and `i32` as `Int` with explicit range checks where the source
performs a checked parse.  Rust functions that can `panic!`, `assert!` or
`unwrap()` are given the three-valued result type `POutcome`, whose `panic`
constructor records that the corresponding Rust execution aborts instead of
returning an error value.  Error values carry only their `ErrKind`; the
formatted message strings of the source are elided.

A few functions called by the sources are not present in the repository
snapshot (the crate does not build as given): the reader methods `read_n`,
`read_current_line`, `peek_current_line`, `step_to_start_of_next_line` and
`step_to_end_of_prior_line`, and the free functions
`parse_uncompressed_object_at` / `parse_compressed_object_at` used by
`object_cache.rs`.  Those are modelled from the specification (§4.1, §4.6,
§4.7), reusing the line-bounds helpers that *are* present in
`file_reader.rs`; each such definition is marked in its doc comment.
-/

set_option maxRecDepth 10000

namespace PdfParser

/-- Error kinds of `src/errors.rs` as used by the embedded functions; the
formatted message payloads of the source are elided.  `outOfFuel` is an
artifact of the embedding: recursions that the source runs unboundedly are
indexed by fuel, and exhausting the fuel produces this error. -/
inductive ErrKind where
  | parsingError
  | referenceError
  | filterError
  | unavailableType
  | testingError
  | outOfFuel
  deriving DecidableEq, Repr

/-- Three-valued outcome of running a Rust function: a returned value, a
returned `Err` value, or an aborted execution (`panic!` / failed assertion /
`unwrap` or `expect` on an error or `None`). -/
inductive POutcome (α : Type) where
  | ok (a : α)
  | err (e : ErrKind)
  | panic (msg : String)
  deriving DecidableEq, Repr

namespace POutcome

/-- Propagate errors and panics, as the `?` operator does (with panics also
aborting the caller). -/
def bind {α β : Type} : POutcome α → (α → POutcome β) → POutcome β
  | ok a, f => f a
  | err e, _ => err e
  | panic m, _ => panic m

/-- Rust `.unwrap()` / `.expect(...)` on a `Result`: an error becomes a panic. -/
def unwrapOr {α : Type} (msg : String) : POutcome α → POutcome α
  | ok a => ok a
  | err _ => panic msg
  | panic m => panic m

def isOk {α : Type} : POutcome α → Bool
  | ok _ => true
  | _ => false

def isErr {α : Type} : POutcome α → Bool
  | err _ => true
  | _ => false

def isPanic {α : Type} : POutcome α → Bool
  | panic _ => true
  | _ => false

end POutcome

/-! ## Byte classification, from `src/util.rs` -/

/-- `is_eol` of `src/util.rs`. -/
def is_eol (c : Nat) : Bool := c == 10 || c == 13

/-- `is_whitespace` of `src/util.rs`. -/
def is_whitespace (c : Nat) : Bool :=
  c == 0 || c == 9 || c == 12 || c == 32 || is_eol c

/-- `is_delimiter` of `src/util.rs`. -/
def is_delimiter (c : Nat) : Bool :=
  c == 60 || c == 62 || c == 40 || c == 41 || c == 91 || c == 93 ||
  c == 123 || c == 125 || c == 47 || c == 37

/-- `is_hex` of `src/util.rs` (this generation accepts lower-case digits). -/
def is_hex (c : Nat) : Bool :=
  (48 ≤ c && c ≤ 57) || (65 ≤ c && c ≤ 70) || (97 ≤ c && c ≤ 102)

/-- `is_octal` of `src/util.rs`. -/
def is_octal (c : Nat) : Bool := 48 ≤ c && c ≤ 55

/-- `is_body_keyword_letter` of `src/util.rs`: the letters of
`obj endobj stream endstream null true false`. -/
def is_body_keyword_letter (c : Nat) : Bool :=
  c == 101 || c == 110 || c == 100 || c == 115 || c == 116 || c == 114 ||
  c == 97 || c == 109 || c == 111 || c == 98 || c == 106 || c == 117 ||
  c == 108 || c == 102

/-- `is_valid_ascii_85_byte` of `src/util.rs`: `z` or a byte in `!`..`u`. -/
def is_valid_ascii_85_byte (c : Nat) : Bool :=
  c == 122 || (33 ≤ c && c ≤ 117)

/-! ## The byte reader, from `src/pdf_doc/pdf_file/file_reader.rs`

The reader is the file contents plus a cursor.  The operations present in
`file_reader.rs` (`seek`, `get_n` alias `read_n`, `peek_ahead_n`,
`get_current_line`, `get_line_bounds_around_index`,
`get_index_after_line_break`) are embedded from the source; the operations
that `pdf_file.rs` calls but that are absent from the snapshot are modelled
from the specification §4.1 on top of the embedded helpers. -/

structure Reader where
  data : List Nat
  cursor : Nat
  deriving Repr

namespace Reader

def len (r : Reader) : Nat := r.data.length

/-- Byte at an index; out-of-range reads default to 0 and are only used where
the source is in range (the source would panic out of range, which is
modelled explicitly at each indexing site that can be reached out of
range). -/
def byteAt (r : Reader) (i : Nat) : Nat := r.data.getD i 0

/-- `SeekFrom` positions of `std::io`, as used by the sources. -/
inductive SeekFrom where
  | start (offset : Nat)
  | current (offset : Int)
  | fromEnd (offset : Int)

/-- The `Seek` impl for `PdfFileReader`: clamp the new position into
`[0, len]`; never fails. -/
def seek (r : Reader) (pos : SeekFrom) : Reader :=
  let newPos : Int :=
    match pos with
    | .start o => (o : Int)
    | .current o => (r.cursor : Int) + o
    | .fromEnd o => (r.len : Int) + o
  let clamped : Nat := if newPos ≤ 0 then 0 else min newPos.toNat r.len
  { r with cursor := clamped }

/-- `bound_n` of `file_reader.rs`: clamp an index into `[0, len]`. -/
def bound_n (r : Reader) (n : Int) : Nat :=
  if n < 0 then 0 else min n.toNat r.len

/-- Modelled from the spec (§4.1 `read_n`): returns up to `n` bytes starting
at the cursor and advances; empty result at EOF.  This is exactly the
behaviour of `get_n` in `file_reader.rs`, whose doc comment carries the same
contract. -/
def read_n (r : Reader) (n : Nat) : List Nat × Reader :=
  if r.cursor ≥ r.len then ([], r)
  else
    let newCursor := r.bound_n ((r.cursor + n : Nat) : Int)
    ((r.data.drop r.cursor).take (newCursor - r.cursor), { r with cursor := newCursor })

/-- `peek_ahead_n` of `file_reader.rs`: the next `n` bytes without moving. -/
def peek_ahead_n (r : Reader) (n : Nat) : List Nat :=
  if r.cursor ≥ r.len then []
  else
    let endIndex := r.bound_n ((r.cursor + n : Nat) : Int)
    (r.data.drop r.cursor).take (endIndex - r.cursor)

/-- `eol_at` of `file_reader.rs` (out-of-range indices read as byte 0). -/
def eol_at (r : Reader) (i : Nat) : Bool := is_eol (r.byteAt i)

/-- The scan `while end_index < len && !eol_at(end_index) { end_index += 1 }`
of `get_line_bounds_around_index`. -/
def scanLineEnd (r : Reader) (e : Nat) : Nat :=
  e + ((r.data.drop e).takeWhile (fun c => !is_eol c)).length

/-- The backwards scan of `get_line_bounds_around_index`: step down from `e`
to just after the previous EOL marker (or to 0). -/
def scanLineStart (r : Reader) (e : Nat) : Nat :=
  e + 1 - ((r.data.take (e + 1)).reverse.takeWhile (fun c => !is_eol c)).length

/-- `get_line_bounds_around_index` of `file_reader.rs`: the content bounds
(start, one-past-end) of the line containing `index`, stepping off EOL
markers first.  (The `usize` underflow of `end_index -= 2` for `index = 1`
on a lone CRLF prefix is clamped by `Nat` subtraction; no caller below
reaches it.) -/
def get_line_bounds_around_index (r : Reader) (index : Nat) : Nat × Nat :=
  if r.eol_at index then
    if index == 0 then (0, 0)
    else
      let endIndex :=
        if r.byteAt index == 10 && r.byteAt (index - 1) == 13 then index - 2
        else index - 1
      if r.eol_at endIndex then (endIndex + 1, endIndex + 1)
      else (r.scanLineStart endIndex, r.scanLineEnd endIndex)
  else (r.scanLineStart index, r.scanLineEnd index)

/-- `get_index_after_line_break` of `file_reader.rs`. -/
def get_index_after_line_break (r : Reader) (index : Nat) : Nat :=
  if !r.eol_at index || index ≥ r.len then index
  else if r.byteAt index == 13 && index + 1 < r.len && r.byteAt (index + 1) == 10 then
    index + 2
  else index + 1

/-- Slice `data[s..e]` of the underlying buffer. -/
def slice (r : Reader) (s e : Nat) : List Nat := (r.data.drop s).take (e - s)

/-- Modelled from the spec (§4.1 `peek_current_line`): the bytes of the line
containing the cursor, excluding line terminators, without moving the
cursor.  Implemented with the embedded `get_line_bounds_around_index`, the
same helper the present `get_current_line` uses; at EOF the empty slice is
returned. -/
def peek_current_line (r : Reader) : List Nat :=
  if r.cursor ≥ r.len then []
  else
    let bounds := r.get_line_bounds_around_index r.cursor
    r.slice bounds.1 bounds.2

/-- `get_current_line` of `file_reader.rs`, the source of the missing
`read_current_line`: return the current line (terminators stripped) and
advance to the start of the next line. -/
def read_current_line (r : Reader) : List Nat × Reader :=
  if r.cursor ≥ r.len then ([], r)
  else
    let bounds := r.get_line_bounds_around_index r.cursor
    let newCursor :=
      if bounds.2 == r.len then bounds.2 else r.get_index_after_line_break bounds.2
    (r.slice bounds.1 bounds.2, { r with cursor := newCursor })

/-- Modelled from the spec (§4.1 `step_to_start_of_next_line`): move the
cursor to the first byte after the current line's terminator (the cursor
update of the present `get_current_line`). -/
def step_to_start_of_next_line (r : Reader) : Reader :=
  if r.cursor ≥ r.len then r
  else
    let bounds := r.get_line_bounds_around_index r.cursor
    let newCursor :=
      if bounds.2 == r.len then bounds.2 else r.get_index_after_line_break bounds.2
    { r with cursor := newCursor }

/-- Modelled from the spec (§4.1 `step_to_end_of_prior_line`): skip exactly
one line terminator pair backwards, landing on the prior line's terminator
position (so that `peek_current_line` then yields the prior line); returns
the number of positions moved, which the source only checks against 0 in a
`debug_assert`. -/
def step_to_end_of_prior_line (r : Reader) : Reader × Nat :=
  if r.cursor ≥ r.len ∧ r.len == 0 then (r, 0)
  else
    let bounds := r.get_line_bounds_around_index (min r.cursor (r.len - 1))
    if bounds.1 == 0 then ({ r with cursor := 0 }, r.cursor)
    else ({ r with cursor := bounds.1 - 1 }, r.cursor - (bounds.1 - 1))

end Reader

/-! ## The object model, from `src/pdf_doc/pdf_objects/pdf_objects.rs` -/

/-- `ObjectId` of `pdf_file.rs` (a pair of `u32`s). -/
structure ObjectId where
  num : Nat
  gen : Nat
  deriving DecidableEq, Repr

/-- `ObjectLocation` of `object_cache.rs`. -/
inductive ObjectLocation where
  | Uncompressed (offset : Nat)
  | Compressed (parent : ObjectId) (index : Nat)
  deriving DecidableEq, Repr

/-- The payload functor of `PdfData` (pdf_objects.rs): `α` stands for
`Rc<PdfObject>` positions.  `String` payloads are modelled as byte lists;
the `f32` of `NumberFloat` is modelled by its source token (no claim
inspects float values); `ObjectStream` carries the sub-resolver's index and
decoded body (`ObjectStreamCache` minus its weak master handle, which the
resolution environment models). -/
inductive PdfDataF (α : Type) where
  | Boolean (b : Bool)
  | NumberInt (n : Int)
  | NumberFloat (token : List Nat)
  | Name (s : List Nat)
  | CharString (s : List Nat)
  | HexString (bytes : List Nat)
  | Array (elems : List α)
  | Dictionary (entries : List (List Nat × α))
  | ContentStream (attributes : List (List Nat × α)) (data : List Nat)
  | BinaryStream (attributes : List (List Nat × α)) (data : List Nat)
  | ObjectStream (index : List (ObjectId × Nat)) (data : List Nat)
  | Comment (s : List Nat)
  | Null

/-- `PdfObject` of pdf_objects.rs: a weak `Reference` or an `Actual` datum.
The `Weak<ObjectCache>` inside a Reference is not stored; it is supplied at
each resolution site as a `ResolveEnv` (see `reference_get`). -/
inductive PdfObject where
  | Reference (id : ObjectId)
  | Actual (d : PdfDataF PdfObject)

/-- `PdfData` instantiated at `PdfObject`, i.e. the `Actual` payload type. -/
abbrev PdfData := PdfDataF PdfObject

/-- The `PdfMap` type (`HashMap<String, Rc<PdfObject>>`), modelled as an
association list with HashMap lookup/insert semantics. -/
abbrev PdfMap := List (List Nat × PdfObject)

/-- `DataType` of pdf_objects.rs. -/
inductive DataType where
  | Boolean
  | VecObjects
  | I32
  | F32
  | String
  | VecU8
  | HashMap
  | Null
  deriving DecidableEq, Repr

/-- `HashMap::get` on the association-list model of `PdfMap`. -/
def mapGet (m : PdfMap) (k : List Nat) : Option PdfObject :=
  match m with
  | [] => none
  | (k', v) :: rest => if k' = k then some v else mapGet rest k

/-- `HashMap::insert` on the association-list model of `PdfMap`: replace an
existing binding or append a fresh one. -/
def mapInsert (m : PdfMap) (k : List Nat) (v : PdfObject) : PdfMap :=
  match m with
  | [] => [(k, v)]
  | (k', v') :: rest => if k' = k then (k, v) :: rest else (k', v') :: mapInsert rest k v

/-- `HashMap::get` for `ObjectId`-keyed maps. -/
def idLookup {α : Type} (m : List (ObjectId × α)) (k : ObjectId) : Option α :=
  match m with
  | [] => none
  | (k', v) :: rest => if k' = k then some v else idLookup rest k

/-- `HashMap::insert` for `ObjectId`-keyed maps. -/
def idInsert {α : Type} (m : List (ObjectId × α)) (k : ObjectId) (v : α) :
    List (ObjectId × α) :=
  match m with
  | [] => [(k, v)]
  | (k', v') :: rest => if k' = k then (k, v) :: rest else (k', v') :: idInsert rest k v

/-- The `Weak<ObjectCache>` handle of a Reference as seen at a resolution
site: `none` models a dropped resolver (`Weak::upgrade` returns `None`),
`some f` a live resolver whose `retrieve_object_by_ref` behaves as `f`. -/
def ResolveEnv : Type := Option (ObjectId → POutcome PdfObject)

/-- `PdfObjectReference::get` (pdf_objects.rs 532–537): `upgrade().expect(…)`
panics when the resolver has been dropped; otherwise delegate to
`retrieve_object_by_ref`. -/
def reference_get (env : ResolveEnv) (id : ObjectId) : POutcome PdfObject :=
  match env with
  | none => .panic "Could not access weak ref in File Interface get"
  | some f => f id

/-- Modelled from the spec (§8): the Reference-variant test used by the
invariant "for every resolved Object o: o.is_reference() == false"; the
accessor itself does not appear in pdf_objects.rs. -/
def PdfObject.is_reference : PdfObject → Bool
  | .Reference _ => true
  | .Actual _ => false

/-- `PdfObjectInterface::is_int` for `PdfObject`: true exactly on
`NumberInt`; a Reference resolves first (resolution failure gives `false`,
a dropped resolver panics).  The fuel bounds reference chains, which the
source follows unboundedly. -/
def is_int (env : ResolveEnv) : Nat → PdfObject → POutcome Bool
  | _, .Actual d =>
    .ok (match d with
         | .NumberInt _ => true
         | _ => false)
  | 0, .Reference _ => .err .outOfFuel
  | fuel + 1, .Reference id =>
    match reference_get env id with
    | .ok v => is_int env fuel v
    | .err _ => .ok false
    | .panic m => .panic m

/-- `PdfObjectInterface::is_name` for `PdfObject` (same failure behaviour as
`is_int`). -/
def is_name (env : ResolveEnv) : Nat → PdfObject → POutcome Bool
  | _, .Actual d =>
    .ok (match d with
         | .Name _ => true
         | _ => false)
  | 0, .Reference _ => .err .outOfFuel
  | fuel + 1, .Reference id =>
    match reference_get env id with
    | .ok v => is_name env fuel v
    | .err _ => .ok false
    | .panic m => .panic m

/-- `PdfObjectInterface::is_string` for `PdfObject`: CharString, Name or
Comment. -/
def is_string (env : ResolveEnv) : Nat → PdfObject → POutcome Bool
  | _, .Actual d =>
    .ok (match d with
         | .CharString _ => true
         | .Name _ => true
         | .Comment _ => true
         | _ => false)
  | 0, .Reference _ => .err .outOfFuel
  | fuel + 1, .Reference id =>
    match reference_get env id with
    | .ok v => is_string env fuel v
    | .err _ => .ok false
    | .panic m => .panic m

/-- `PdfObjectInterface::is_array` for `PdfObject`. -/
def is_array (env : ResolveEnv) : Nat → PdfObject → POutcome Bool
  | _, .Actual d =>
    .ok (match d with
         | .Array _ => true
         | _ => false)
  | 0, .Reference _ => .err .outOfFuel
  | fuel + 1, .Reference id =>
    match reference_get env id with
    | .ok v => is_array env fuel v
    | .err _ => .ok false
    | .panic m => .panic m

/-- `PdfObjectInterface::try_into_int`: the `NumberInt` payload, resolving
References first; anything else is an `UnavailableType` error. -/
def try_into_int (env : ResolveEnv) : Nat → PdfObject → POutcome Int
  | _, .Actual d =>
    match d with
    | .NumberInt n => .ok n
    | _ => .err .unavailableType
  | 0, .Reference _ => .err .outOfFuel
  | fuel + 1, .Reference id =>
    POutcome.bind (reference_get env id) (fun v => try_into_int env fuel v)

/-- `PdfObjectInterface::try_into_string`: the payload of a CharString, Name
or Comment. -/
def try_into_string (env : ResolveEnv) : Nat → PdfObject → POutcome (List Nat)
  | _, .Actual d =>
    match d with
    | .CharString s => .ok s
    | .Name s => .ok s
    | .Comment s => .ok s
    | _ => .err .unavailableType
  | 0, .Reference _ => .err .outOfFuel
  | fuel + 1, .Reference id =>
    POutcome.bind (reference_get env id) (fun v => try_into_string env fuel v)

/-- `PdfObjectInterface::try_into_map`: a Dictionary's entries, or a
BinaryStream's attribute dictionary. -/
def try_into_map (env : ResolveEnv) : Nat → PdfObject → POutcome PdfMap
  | _, .Actual d =>
    match d with
    | .Dictionary entries => .ok entries
    | .BinaryStream attributes _ => .ok attributes
    | _ => .err .unavailableType
  | 0, .Reference _ => .err .outOfFuel
  | fuel + 1, .Reference id =>
    POutcome.bind (reference_get env id) (fun v => try_into_map env fuel v)

/-- `PdfObjectInterface::try_into_array`: an Array's element list. -/
def try_into_array (env : ResolveEnv) : Nat → PdfObject → POutcome (List PdfObject)
  | _, .Actual d =>
    match d with
    | .Array elems => .ok elems
    | _ => .err .unavailableType
  | 0, .Reference _ => .err .outOfFuel
  | fuel + 1, .Reference id =>
    POutcome.bind (reference_get env id) (fun v => try_into_array env fuel v)

/-- `PdfObjectInterface::try_into_binary`: a HexString's bytes or a
BinaryStream's decoded data (a ContentStream is *not* accepted). -/
def try_into_binary (env : ResolveEnv) : Nat → PdfObject → POutcome (List Nat)
  | _, .Actual d =>
    match d with
    | .HexString bytes => .ok bytes
    | .BinaryStream _ data => .ok data
    | _ => .err .unavailableType
  | 0, .Reference _ => .err .outOfFuel
  | fuel + 1, .Reference id =>
    POutcome.bind (reference_get env id) (fun v => try_into_binary env fuel v)

/-- `PdfObjectInterface::get_data_type` (pdf_objects.rs 228–247). -/
def get_data_type (env : ResolveEnv) : Nat → PdfObject → POutcome DataType
  | _, .Actual d =>
    .ok (match d with
         | .Boolean _ => .Boolean
         | .NumberInt _ => .I32
         | .NumberFloat _ => .F32
         | .Name _ => .String
         | .CharString _ => .String
         | .HexString _ => .VecU8
         | .Array _ => .VecObjects
         | .Dictionary _ => .HashMap
         | .ContentStream _ _ => .String
         | .BinaryStream _ _ => .VecU8
         | .Comment _ => .String
         | .ObjectStream _ _ => .VecObjects
         | .Null => .Null)
  | 0, .Reference _ => .err .outOfFuel
  | fuel + 1, .Reference id =>
    POutcome.bind (reference_get env id) (fun v => get_data_type env fuel v)

/-- `PdfObjectInterface::try_to_index` (pdf_objects.rs 278–287): on an Array
the source indexes `vec[index]`, which panics when the index is out of
bounds; on any other Actual variant it returns an `UnavailableType` error;
a Reference resolves first. -/
def try_to_index (env : ResolveEnv) : Nat → PdfObject → Nat → POutcome PdfObject
  | _, .Actual d, i =>
    match d with
    | .Array vec =>
      if h : i < vec.length then .ok (vec.get ⟨i, h⟩)
      else .panic "index out of bounds"
    | _ => .err .unavailableType
  | 0, .Reference _, _ => .err .outOfFuel
  | fuel + 1, .Reference id, i =>
    POutcome.bind (reference_get env id) (fun v => try_to_index env fuel v i)

/-! ## Standard-library helpers used by the sources -/

/-- Decimal digit test. -/
def is_digit (c : Nat) : Bool := decide (48 ≤ c) && decide (c ≤ 57)

/-- Rust `str::parse::<i32>` on ASCII bytes: an optional sign, then a
non-empty digit string, rejecting values outside `i32` range. -/
def parse_i32 (s : List Nat) : Option Int :=
  let signAndDigits : Int × List Nat :=
    match s with
    | 43 :: rest => (1, rest)
    | 45 :: rest => (-1, rest)
    | _ => (1, s)
  let sign := signAndDigits.1
  let digits := signAndDigits.2
  if digits.isEmpty || !(digits.all is_digit) then none
  else
    let v : Nat := digits.foldl (fun acc c => acc * 10 + (c - 48)) 0
    let value : Int := sign * (v : Int)
    if value < -2147483648 ∨ 2147483647 < value then none else some value

/-- Rust `str::parse::<u32>` on ASCII bytes: an optional `+`, then a
non-empty digit string within `u32` range. -/
def parse_u32 (s : List Nat) : Option Nat :=
  let digits : List Nat :=
    match s with
    | 43 :: rest => rest
    | _ => s
  if digits.isEmpty || !(digits.all is_digit) then none
  else
    let v : Nat := digits.foldl (fun acc c => acc * 10 + (c - 48)) 0
    if 4294967295 < v then none else some v

/-- Rust `str::parse::<usize>` on ASCII bytes (64-bit `usize`). -/
def parse_usize (s : List Nat) : Option Nat :=
  let digits : List Nat :=
    match s with
    | 43 :: rest => rest
    | _ => s
  if digits.isEmpty || !(digits.all is_digit) then none
  else
    let v : Nat := digits.foldl (fun acc c => acc * 10 + (c - 48)) 0
    if 18446744073709551615 < v then none else some v

/-- Byte in a closed range (Bool-valued helper for `utf8Valid`). -/
def inRange (lo hi c : Nat) : Bool := decide (lo ≤ c) && decide (c ≤ hi)

/-- UTF-8 validity of a byte list, as checked by Rust `str::from_utf8`
(standard ranges, rejecting overlong encodings and surrogates). -/
def utf8Valid : List Nat → Bool
  | [] => true
  | c :: rest =>
    if c ≤ 127 then utf8Valid rest
    else if inRange 194 223 c then
      match rest with
      | c1 :: r => inRange 128 191 c1 && utf8Valid r
      | [] => false
    else if c == 224 then
      match rest with
      | c1 :: c2 :: r => inRange 160 191 c1 && inRange 128 191 c2 && utf8Valid r
      | _ => false
    else if inRange 225 236 c || c == 238 || c == 239 then
      match rest with
      | c1 :: c2 :: r => inRange 128 191 c1 && inRange 128 191 c2 && utf8Valid r
      | _ => false
    else if c == 237 then
      match rest with
      | c1 :: c2 :: r => inRange 128 159 c1 && inRange 128 191 c2 && utf8Valid r
      | _ => false
    else if c == 240 then
      match rest with
      | c1 :: c2 :: c3 :: r =>
        inRange 144 191 c1 && inRange 128 191 c2 && inRange 128 191 c3 && utf8Valid r
      | _ => false
    else if inRange 241 243 c then
      match rest with
      | c1 :: c2 :: c3 :: r =>
        inRange 128 191 c1 && inRange 128 191 c2 && inRange 128 191 c3 && utf8Valid r
      | _ => false
    else if c == 244 then
      match rest with
      | c1 :: c2 :: c3 :: r =>
        inRange 128 143 c1 && inRange 128 191 c2 && inRange 128 191 c3 && utf8Valid r
      | _ => false
    else false

/-- ASCII fragment of Rust `char::is_whitespace`, as used by `trim` and
`split_whitespace` (the inputs compared against are ASCII keywords and
integers, so the non-ASCII whitespace code points never matter). -/
def rust_char_ws (c : Nat) : Bool :=
  c == 9 || c == 10 || c == 11 || c == 12 || c == 13 || c == 32

/-- Rust `str::trim` on the byte-list model.  `String::from_utf8_lossy` is
modelled as the identity on bytes: the trimmed line is only ever compared
against ASCII keywords or parsed as an integer, and both comparisons fail on
any line containing invalid UTF-8, in the source (replacement characters)
and in the model (raw bytes) alike. -/
def trimBytes (s : List Nat) : List Nat :=
  ((s.dropWhile rust_char_ws).reverse.dropWhile rust_char_ws).reverse

/-- Worker for `splitWs`, accumulating the current word reversed. -/
def splitWsAux : List Nat → List Nat → List (List Nat)
  | [], acc => if acc.isEmpty then [] else [acc.reverse]
  | c :: rest, acc =>
    if rust_char_ws c then
      if acc.isEmpty then splitWsAux rest [] else acc.reverse :: splitWsAux rest []
    else splitWsAux rest (c :: acc)

/-- Rust `str::split_whitespace` on the byte-list model. -/
def splitWs (s : List Nat) : List (List Nat) := splitWsAux s []

/-- Code points of a Lean string literal; used only for ASCII constants, so
this equals the UTF-8 byte sequence of the literal. -/
def strBytes (s : String) : List Nat := s.data.map Char.toNat

/-! ## The object parser, from `src/pdf_doc/pdf_file/pdf_file.rs` -/

/-- `ParserState` of pdf_file.rs (the `u8` nesting depth as `Nat`). -/
inductive ParserState where
  | Neutral
  | HexString
  | CharString (depth : Nat)
  | Name
  | Number
  | Comment
  | Keyword
  deriving DecidableEq, Repr

/-- `PDFComplexObject` of pdf_file.rs. -/
inductive PDFComplexObject where
  | Unknown
  | Dict
  | Array
  | IndirectObj
  deriving DecidableEq, Repr

/-- `PDFKeyword` of pdf_file.rs. -/
inductive PDFKeyword where
  | Stream
  | EndStream
  | Obj
  | EndObj
  | R
  | Null
  | True
  | False
  | XRef
  | F
  | N
  | Trailer
  | StartXRef
  deriving DecidableEq, Repr

/-- Turn any error into `ParsingError`, as `chain_err(|| ParsingError(…))`
does. -/
def chainErrParsing {α : Type} : POutcome α → POutcome α
  | .err _ => .err .parsingError
  | x => x

/-- `flush_buffer_to_object` (pdf_file.rs 711–755).  Note that the HexString
arm validates the accumulated digits but stores them *raw* (the decode and
the padding are absent; the source carries a `TODO: ADD PADDING`), and that
the CharString arm's `from_utf8_lossy` is modelled as the identity (the
parser state machine only ever feeds it the escape-processed bytes, ASCII in
every input considered here).  The Number arm's `parse::<f32>` is modelled
as succeeding exactly when the token contains a digit, which matches Rust's
float grammar on the tokens the Number state can produce (digits, an
optional leading sign, at most one dot). -/
def flush_buffer_to_object (state : ParserState) (buffer : List Nat) : POutcome PdfObject :=
  match state with
  | .Neutral => .err .parsingError
  | .HexString =>
    if buffer.all is_hex then .ok (.Actual (.HexString buffer))
    else .err .parsingError
  | .CharString 0 => .ok (.Actual (.CharString buffer))
  | .CharString (_ + 1) => .err .parsingError
  | .Name =>
    if utf8Valid buffer then .ok (.Actual (.Name buffer)) else .err .parsingError
  | .Number =>
    if buffer.contains 46 then
      if utf8Valid buffer && buffer.any is_digit then .ok (.Actual (.NumberFloat buffer))
      else .err .parsingError
    else
      if !utf8Valid buffer then .err .parsingError
      else
        match parse_i32 buffer with
        | some n => .ok (.Actual (.NumberInt n))
        | none => .err .parsingError
  | .Comment =>
    if utf8Valid buffer then .ok (.Actual (.Comment buffer)) else .err .parsingError
  | .Keyword => .panic "Entered Keyword match arm in flush_buffer_to_object"

/-- `make_array_from_object_buffer` (pdf_file.rs 757–759). -/
def make_array_from_object_buffer (buf : List PdfObject) : POutcome PdfObject :=
  .ok (.Actual (.Array buf))

/-- The pairing loop of `make_dict_from_object_buffer`: keys must be Names
(`is_name`, which resolves References), an odd element count is an error,
and the key string is extracted with `try_into_string().unwrap()` (a panic
if it fails). -/
def make_dict_loop (env : ResolveEnv) (fuel : Nat) :
    List PdfObject → PdfMap → POutcome PdfObject
  | [], dict => .ok (.Actual (.Dictionary dict))
  | key :: rest, dict =>
    POutcome.bind (is_name env fuel key) fun isn =>
      if !isn then .err .parsingError
      else
        match rest with
        | [] => .err .parsingError
        | value :: rest' =>
          POutcome.bind
            (POutcome.unwrapOr "unwrap of dictionary key" (try_into_string env fuel key))
            fun k => make_dict_loop env fuel rest' (mapInsert dict k value)

/-- `make_dict_from_object_buffer` (pdf_file.rs 761–779). -/
def make_dict_from_object_buffer (env : ResolveEnv) (fuel : Nat)
    (buf : List PdfObject) : POutcome PdfObject :=
  make_dict_loop env fuel buf []

/-- `make_object_from_object_buffer` (pdf_file.rs 781–790): exactly three
buffered objects, the first two `is_int`; the *third is returned as-is*
(`object_buffer.pop().unwrap()`), with no check that it is not a bare
Reference. -/
def make_object_from_object_buffer (env : ResolveEnv) (fuel : Nat)
    (buf : List PdfObject) : POutcome PdfObject :=
  match buf with
  | [a, b, v] =>
    POutcome.bind (is_int env fuel a) fun ia =>
      if !ia then .err .parsingError
      else
        POutcome.bind (is_int env fuel b) fun ib =>
          if !ib then .err .parsingError
          else .ok v
  | _ => .err .parsingError

/-- `i32 as usize` (sign extension then reinterpretation on 64 bits). -/
def int_as_usize (n : Int) : Nat :=
  if n < 0 then (18446744073709551616 + n).toNat else n.toNat

/-- `make_stream_object` (pdf_file.rs 565–634).  The final call decodes and
classifies the raw body; in the snapshot it names `decode::decode_stream`
with a signature that does not exist in `decode.rs` (the crate does not
build), so that last step is abstracted as the oracle `dec`, whose faithful
embedding for the ASCII85 path appears separately below.  The `gen_number`
is read from `object_buffer[0]`, exactly as the source does (a slip — it
reuses the id slot), which is behaviourally invisible because both values
only feed error messages. -/
def make_stream_object (env : ResolveEnv) (fuel : Nat)
    (dec : PdfMap → List Nat → POutcome PdfObject)
    (buf : List PdfObject) (r : Reader) : POutcome (PdfObject × Reader) :=
  match buf with
  | [idObj, _genObj, dictObj] =>
    POutcome.bind (chainErrParsing (try_into_map env fuel dictObj)) fun stream_dict =>
      let r := r.step_to_start_of_next_line
      POutcome.bind (chainErrParsing (try_into_int env fuel idObj)) fun _id_number =>
        POutcome.bind (chainErrParsing (try_into_int env fuel idObj)) fun _gen_number =>
          match mapGet stream_dict (strBytes "Length") with
          | none => .err .parsingError
          | some lenObj =>
            POutcome.bind (chainErrParsing (try_into_int env fuel lenObj)) fun len =>
              let binary_length := int_as_usize len
              let rd := r.read_n binary_length
              if rd.1.length ≠ binary_length then .err .parsingError
              else
                let r2 := rd.2.step_to_start_of_next_line
                POutcome.bind (dec stream_dict rd.1) fun obj => .ok (obj, r2)
  | _ => .err .parsingError

/-- Element of a list with a default (used where the source indexes a `Vec`
whose length it has already checked). -/
def listAt (buf : List PdfObject) (i : Nat) : PdfObject :=
  buf.getD i (.Actual .Null)

mutual

/-- `parse_object_at` (pdf_file.rs 247–563): seek to `start_index`, then run
the state machine.  `env` models the `weak_ref` parameter (the resolver
handle stored into References and consulted by the typed accessors), `dec`
the stream decode step (see `make_stream_object`), and `fuel` bounds the
loop, which the source runs unboundedly. -/
def parse_object_at (env : ResolveEnv) (dec : PdfMap → List Nat → POutcome PdfObject)
    (fuel : Nat) (r : Reader) (start : Nat) : POutcome (PdfObject × Reader) :=
  match fuel with
  | 0 => .err .outOfFuel
  | fuel + 1 =>
    parse_loop env dec fuel (r.seek (.start start)) .Neutral .Unknown [] []

/-- One iteration of the `loop` in `parse_object_at`; `state`, `ty`,
`charBuf` and `objBuf` are the loop-carried `state`, `this_object_type`,
`char_buffer` and `object_buffer`. -/
def parse_loop (env : ResolveEnv) (dec : PdfMap → List Nat → POutcome PdfObject)
    (fuel : Nat) (r : Reader) (state : ParserState) (ty : PDFComplexObject)
    (charBuf : List Nat) (objBuf : List PdfObject) : POutcome (PdfObject × Reader) :=
  match fuel with
  | 0 => .err .outOfFuel
  | fuel + 1 =>
    match (r.read_n 1).1, (r.read_n 1).2 with
    | [], _ => .err .parsingError
    | c :: _, r =>
      match state with
      | .Neutral =>
        if c == 91 then
          if ty == .Unknown then
            parse_loop env dec fuel r .Neutral .Array charBuf objBuf
          else
            POutcome.bind (parse_object_at env dec fuel r (r.cursor - 1)) fun res =>
              parse_loop env dec fuel res.2 .Neutral ty charBuf (objBuf ++ [res.1])
        else if c == 93 then
          if ty == .Array then
            POutcome.bind (make_array_from_object_buffer objBuf) fun a => .ok (a, r)
          else .err .parsingError
        else if c == 60 && r.peek_ahead_n 1 == [60] then
          if ty == .Unknown then
            parse_loop env dec fuel (r.seek (.current 1)) .Neutral .Dict charBuf objBuf
          else
            POutcome.bind (parse_object_at env dec fuel r (r.cursor - 1)) fun res =>
              parse_loop env dec fuel res.2 .Neutral ty charBuf (objBuf ++ [res.1])
        else if c == 60 then
          parse_loop env dec fuel r .HexString ty charBuf objBuf
        else if c == 62 && r.peek_ahead_n 1 == [62] then
          if ty == .Dict then
            POutcome.bind (make_dict_from_object_buffer env fuel objBuf) fun d =>
              .ok (d, r.seek (.current 1))
          else .err .parsingError
        else if c == 40 then
          parse_loop env dec fuel r (.CharString 0) ty charBuf objBuf
        else if c == 47 then
          parse_loop env dec fuel r .Name ty charBuf objBuf
        else if c == 82 then
          -- The `R` back-action: the two preceding buffered objects must be
          -- non-negative integers; they are replaced by a Reference.
          let l := objBuf.length
          if l ≤ 1 then .err .parsingError
          else
            POutcome.bind (is_int env fuel (listAt objBuf (l - 2))) fun i1 =>
              if !i1 then .err .parsingError
              else
                POutcome.bind (is_int env fuel (listAt objBuf (l - 1))) fun i2 =>
                  if !i2 then .err .parsingError
                  else
                    POutcome.bind
                      (POutcome.unwrapOr "unwrap of reference id"
                        (try_into_int env fuel (listAt objBuf (l - 2)))) fun v1 =>
                      if v1 < 0 then .err .parsingError
                      else
                        POutcome.bind
                          (POutcome.unwrapOr "unwrap of reference gen"
                            (try_into_int env fuel (listAt objBuf (l - 1)))) fun v2 =>
                          if v2 < 0 then .err .parsingError
                          else
                            let newObj : PdfObject := .Reference ⟨v1.toNat, v2.toNat⟩
                            parse_loop env dec fuel r .Neutral ty charBuf
                              (objBuf.take (l - 2) ++ [newObj])
        else if c == 115 || c == 101 || c == 111 || c == 110 || c == 116 || c == 102 then
          parse_loop env dec fuel r .Keyword ty (charBuf ++ [c]) objBuf
        else if is_digit c || c == 43 || c == 45 then
          parse_loop env dec fuel (r.seek (.current (-1))) .Number ty charBuf objBuf
        else if is_whitespace c then
          parse_loop env dec fuel r .Neutral ty charBuf objBuf
        else .err .parsingError
      | .HexString =>
        if c == 62 then
          POutcome.bind (flush_buffer_to_object .HexString charBuf) fun o =>
            parse_loop env dec fuel r .Neutral ty [] (objBuf ++ [o])
        else if is_digit c || inRange 65 70 c || inRange 97 102 c then
          parse_loop env dec fuel r .HexString ty (charBuf ++ [c]) objBuf
        else if is_whitespace c then
          parse_loop env dec fuel r .HexString ty charBuf objBuf
        else .err .parsingError
      | .CharString depth =>
        if c == 41 && depth == 0 then
          POutcome.bind (flush_buffer_to_object (.CharString 0) charBuf) fun o =>
            parse_loop env dec fuel r .Neutral ty [] (objBuf ++ [o])
        else if c == 41 then
          parse_loop env dec fuel r (.CharString (depth - 1)) ty charBuf objBuf
        else if c == 40 then
          parse_loop env dec fuel r (.CharString (depth + 1)) ty charBuf objBuf
        else if c == 92 then
          -- Backslash escape: the source matches on `reader.read_n(1)`.
          -- Bytes 15 and 12 are the literal values in the source (the
          -- comments there call them carriage return and line feed).
          match (r.read_n 1).1, (r.read_n 1).2 with
          | [15], r =>
            if r.peek_ahead_n 1 == [12] then
              parse_loop env dec fuel (r.seek (.current 1)) (.CharString depth) ty charBuf objBuf
            else parse_loop env dec fuel r (.CharString depth) ty charBuf objBuf
          | [12], r => parse_loop env dec fuel r (.CharString depth) ty charBuf objBuf
          | [92], r => parse_loop env dec fuel r (.CharString depth) ty (charBuf ++ [92]) objBuf
          | [40], r => parse_loop env dec fuel r (.CharString depth) ty (charBuf ++ [40]) objBuf
          | [41], r => parse_loop env dec fuel r (.CharString depth) ty (charBuf ++ [41]) objBuf
          | [d], r =>
            if is_octal d then
              -- Up to three octal digits; the second `if` reads
              -- `peek_next_digits[1]` even when `peek_next_digits[0]` was
              -- not octal, exactly as the source does.  The final value is
              -- a `u8`; wrapping (release build) is modelled by `% 256`.
              let peek2 := r.peek_ahead_n 2
              let code1 :=
                if decide (0 < peek2.length) && is_octal (peek2.getD 0 0) then
                  (d - 48) * 8 + (peek2.getD 0 0 - 48)
                else d - 48
              if peek2.length == 2 && is_octal (peek2.getD 1 0) then
                parse_loop env dec fuel (r.seek (.current 2)) (.CharString depth) ty
                  (charBuf ++ [(code1 * 8 + (peek2.getD 1 0 - 48)) % 256]) objBuf
              else
                parse_loop env dec fuel (r.seek (.current 1)) (.CharString depth) ty
                  (charBuf ++ [code1 % 256]) objBuf
            else
              -- Any other escaped byte is consumed and dropped (the `_`
              -- arm pushes nothing).
              parse_loop env dec fuel r (.CharString depth) ty charBuf objBuf
          | _, r => parse_loop env dec fuel r (.CharString depth) ty charBuf objBuf
        else
          parse_loop env dec fuel r (.CharString depth) ty (charBuf ++ [c]) objBuf
      | .Name =>
        if c != 37 && (is_whitespace c || is_delimiter c) then
          POutcome.bind (flush_buffer_to_object .Name charBuf) fun o =>
            parse_loop env dec fuel (r.seek (.current (-1))) .Neutral ty [] (objBuf ++ [o])
        else
          parse_loop env dec fuel r .Name ty (charBuf ++ [c]) objBuf
      | .Number =>
        if is_digit c then
          parse_loop env dec fuel r .Number ty (charBuf ++ [c]) objBuf
        else if (c == 45 || c == 43) && charBuf.isEmpty then
          parse_loop env dec fuel r .Number ty (charBuf ++ [c]) objBuf
        else if c == 46 then
          if charBuf.contains 46 then .err .parsingError
          else parse_loop env dec fuel r .Number ty (charBuf ++ [c]) objBuf
        else if is_whitespace c || is_delimiter c then
          POutcome.bind (flush_buffer_to_object .Number charBuf) fun o =>
            parse_loop env dec fuel (r.seek (.current (-1))) .Neutral ty [] (objBuf ++ [o])
        else .err .parsingError
      | .Comment =>
        if is_eol c then
          POutcome.bind (flush_buffer_to_object .Comment charBuf) fun o =>
            parse_loop env dec fuel r .Neutral ty [] (objBuf ++ [o])
        else
          parse_loop env dec fuel r .Comment ty (charBuf ++ [c]) objBuf
      | .Keyword =>
        if is_body_keyword_letter c then
          parse_loop env dec fuel r .Keyword ty (charBuf ++ [c]) objBuf
        else if !(is_delimiter c || is_whitespace c) then .err .parsingError
        else
          let kw : Option PDFKeyword :=
            if charBuf == strBytes "obj" then some .Obj
            else if charBuf == strBytes "endobj" then some .EndObj
            else if charBuf == strBytes "stream" then some .Stream
            else if charBuf == strBytes "endstream" then some .EndStream
            else if charBuf == strBytes "null" then some .Null
            else if charBuf == strBytes "false" then some .False
            else if charBuf == strBytes "true" then some .True
            else none
          match kw with
          | none => .err .parsingError
          | some .EndObj =>
            if ty == .IndirectObj then
              POutcome.bind (make_object_from_object_buffer env fuel objBuf) fun o =>
                .ok (o, r)
            else .err .parsingError
          | some .Stream => make_stream_object env fuel dec objBuf r
          | some .Obj =>
            if ty != .Unknown then .err .parsingError
            else parse_loop env dec fuel (r.seek (.current (-1))) .Neutral .IndirectObj [] objBuf
          | some .True =>
            parse_loop env dec fuel (r.seek (.current (-1))) .Neutral ty []
              (objBuf ++ [.Actual (.Boolean true)])
          | some .Null =>
            parse_loop env dec fuel (r.seek (.current (-1))) .Neutral ty []
              (objBuf ++ [.Actual .Null])
          | some _ =>
            -- `False` and `EndStream` reach the `_` arm of the source's
            -- keyword dispatch: "Unrecognized keyword".
            .err .parsingError

end

/-! ## The ASCII85 filter, from `src/pdf_doc/pdf_file/decode.rs` -/

/-- The accumulation loop of `Filter::_parse_ascii_85_group`
(decode.rs 155–187): validate each character, handle the `z` sentinel
(legal only in a group of length 1, expanding to four zero bytes — signalled
here by `none`), and accumulate the base-85 value in a `u32` (release-build
wrapping is modelled by `% 2^32`).  `total` is `vec.len()`, which the `z`
arm consults. -/
def ascii85_accum (total : Nat) : List Nat → Nat → POutcome (Option Nat)
  | [], acc => .ok (some acc)
  | c :: rest, acc =>
    if !is_valid_ascii_85_byte c then .err .filterError
    else if c == 122 then
      if total > 1 then .err .filterError else .ok none
    else ascii85_accum total rest ((acc * 85 + (c - 33)) % 4294967296)

/-- The output loop of `Filter::_parse_ascii_85_group`: for
`exp in (0..3).rev()` it computes `place = value.pow(exp)` (raising the
*accumulated value* to `exp`, in `u32` with release-build wrapping),
divides — Rust panics when `place` is zero — truncates the quotient to
`u8`, and reduces `value` modulo `place`.  Three bytes are produced. -/
def ascii85_output (v0 : Nat) : POutcome (List Nat) :=
  let p2 := (v0 ^ 2) % 4294967296
  if p2 == 0 then .panic "attempt to divide by zero"
  else
    let d2 := (v0 / p2) % 256
    let v1 := v0 % p2
    let p1 := (v1 ^ 1) % 4294967296
    if p1 == 0 then .panic "attempt to divide by zero"
    else
      let d1 := (v1 / p1) % 256
      let v2 := v1 % p1
      let p0 := (v2 ^ 0) % 4294967296
      if p0 == 0 then .panic "attempt to divide by zero"
      else .ok [d2, d1, (v2 / p0) % 256]

/-- `Filter::_parse_ascii_85_group` (decode.rs 155–187). -/
def parse_ascii_85_group (vec : List Nat) : POutcome (List Nat) :=
  match ascii85_accum vec.length vec 0 with
  | .ok none => .ok [0, 0, 0, 0]
  | .ok (some v) => ascii85_output v
  | .err e => .err e
  | .panic m => .panic m

/-- `Ascii85Iterator::next` (decode.rs 398–438).  Returns `(none, cursor)`
when the iteration ends (cursor past `last_index`, or the terminator test —
which reads `data[data_cursor + 1]`, i.e. the byte *two* past the `~` —
succeeds) and `(some group, cursor)` when a group is emitted.  Indexing
panics are modelled explicitly: `data[data_cursor]` is evaluated whenever
`data_cursor ≤ last_index`, and the terminator test indexes one past the
position after the `~`. -/
def ascii85_next (data : List Nat) (last : Nat) :
    Nat → Nat → List Nat → POutcome (Option (List Nat) × Nat)
  | 0, _, _ => .err .outOfFuel
  | fuel + 1, cursor, buffer =>
    if cursor > last then .ok (none, cursor)
    else if h : cursor < data.length then
      let next := data.get ⟨cursor, h⟩
      let cursor := cursor + 1
      if cursor == last then .ok (some buffer, cursor)
      else if is_whitespace next then ascii85_next data last fuel cursor buffer
      else if next == 126 && decide (cursor < last) then
        if h2 : cursor + 1 < data.length then
          if data.get ⟨cursor + 1, h2⟩ == 62 then .ok (none, cursor)
          else
            let buffer := buffer ++ [next]
            if buffer.length > 4 then .ok (some buffer, cursor)
            else if next == 122 then .ok (some buffer, cursor)
            else ascii85_next data last fuel cursor buffer
        else .panic "index out of bounds"
      else
        let buffer := buffer ++ [next]
        if buffer.length > 4 then .ok (some buffer, cursor)
        else if next == 122 then .ok (some buffer, cursor)
        else ascii85_next data last fuel cursor buffer
    else .panic "index out of bounds"

/-- The iteration of `Filter::apply_ascii_85` (decode.rs 147–153): extend
the output with each parsed group. -/
def apply_ascii_85_loop (data : List Nat) (last : Nat) :
    Nat → Nat → List Nat → POutcome (List Nat)
  | 0, _, _ => .err .outOfFuel
  | fuel + 1, cursor, acc =>
    match ascii85_next data last (data.length + 2) cursor [] with
    | .ok (none, _) => .ok acc
    | .ok (some g, c') =>
      POutcome.bind (parse_ascii_85_group g) fun bytes =>
        apply_ascii_85_loop data last fuel c' (acc ++ bytes)
    | .err e => .err e
    | .panic m => .panic m

/-- `Filter::apply_ascii_85` (decode.rs 147–153), with
`AsciiData::ascii85_iter` supplying `last_index = data.len()` and the fuel
covering every possible iteration count (each emitted group consumes at
least one input byte). -/
def apply_ascii_85 (data : List Nat) : POutcome (List Nat) :=
  apply_ascii_85_loop data data.length (data.length + 2) 0 []

/-! ## The resolver, from `src/pdf_doc/pdf_file/object_cache.rs` -/

/-- The cache `ObjectId → Rc<PdfObject>`. -/
abbrev Cache := List (ObjectId × PdfObject)

/-- The resolver's context: the id→location index, and the two parse entry
points `parse_uncompressed_object_at` / `parse_compressed_object_at`, which
are absent from the repository snapshot.  Modelled from the spec (§4.4,
§4.7, §5): a parse may *reentrantly* resolve indirect prerequisites —
`/Length`, `/Filter`, object-stream headers — through the resolver it holds
a weak handle to, inserting into the shared cache before it returns, so
each entry point is abstracted as a cache transformer from the byte offset
it is given: it receives the cache as of the call and returns its result
together with the cache as of its return.  The discipline that reentry
through `retrieve_object_by_ref` itself maintains — every entry such a
reentrant resolution adds holds a successfully parsed object — is stated
separately as `oracles_cache_only_parses` and assumed where a theorem needs
it.  `retrieve_object_by_ref` itself is embedded from `object_cache.rs`
below. -/
structure ResolverCtx where
  indexMap : List (ObjectId × ObjectLocation)
  parseU : Nat → Cache → POutcome PdfObject × Cache
  parseC : Nat → Cache → POutcome PdfObject × Cache

mutual

/-- `ObjectCache::retrieve_object_by_ref` (object_cache.rs 50–78): return a
cached object; otherwise look up the location, parse (uncompressed at its
offset, or through the parent object stream), insert the parsed object into
the cache *as the parse left it* (the parse may have reentered the resolver
and cached other ids meanwhile), and return it.  Errors propagate with the
cache state at the failure point (the pair's second component), exactly
mirroring which inserts have happened. -/
def retrieve_object_by_ref (ctx : ResolverCtx) (fuel : Nat) (cache : Cache)
    (id : ObjectId) : POutcome PdfObject × Cache :=
  match fuel with
  | 0 => (.err .outOfFuel, cache)
  | fuel + 1 =>
    match idLookup cache id with
    | some o => (.ok o, cache)
    | none =>
      match idLookup ctx.indexMap id with
      | none => (.err .referenceError, cache)
      | some (.Uncompressed ix) =>
        match ctx.parseU ix cache with
        | (.ok o, c1) => (.ok o, idInsert c1 id o)
        | (.err e, c1) => (.err e, c1)
        | (.panic m, c1) => (.panic m, c1)
      | some (.Compressed parentId _ix) =>
        match retrieve_object_by_ref ctx fuel cache parentId with
        | (.ok pobj, c1) =>
          match try_into_object_stream_r ctx fuel c1 pobj with
          | (.ok subIndex, c2) =>
            -- `ObjectStreamCache::retrieve_object_by_ref` (91–103): look up
            -- the position, parse there, no caching of its own.
            match idLookup subIndex id with
            | none => (.err .referenceError, c2)
            | some six =>
              match ctx.parseC six c2 with
              | (.ok o, c3) => (.ok o, idInsert c3 id o)
              | (.err e, c3) => (.err e, c3)
              | (.panic m, c3) => (.panic m, c3)
          | (.err e, c2) => (.err e, c2)
          | (.panic m, c2) => (.panic m, c2)
        | (.err e, c1) => (.err e, c1)
        | (.panic m, c1) => (.panic m, c1)

/-- `try_into_object_stream` as invoked on the parent inside
`retrieve_object_by_ref`: an ObjectStream yields its sub-resolver's index; a
Reference resolves through the same cache (its weak handle is the enclosing
`ObjectCache`) and retries; anything else is an `UnavailableType` error. -/
def try_into_object_stream_r (ctx : ResolverCtx) (fuel : Nat) (cache : Cache) :
    PdfObject → POutcome (List (ObjectId × Nat)) × Cache
  | .Actual (.ObjectStream index _) => (.ok index, cache)
  | .Actual _ => (.err .unavailableType, cache)
  | .Reference rid =>
    match fuel with
    | 0 => (.err .outOfFuel, cache)
    | fuel + 1 =>
      match retrieve_object_by_ref ctx fuel cache rid with
      | (.ok o, c1) => try_into_object_stream_r ctx fuel c1 o
      | (.err e, c1) => (.err e, c1)
      | (.panic m, c1) => (.panic m, c1)

end

/-! ## Page contents, from `src/pdf_doc/page.rs` -/

/-- The concatenation loop of `Page::contents_as_binary`: each element's
bytes are obtained with `try_into_binary().unwrap()` (a panic whenever the
element is not a HexString or BinaryStream — in particular for a
ContentStream) and appended with **no separator**. -/
def contents_fold (env : ResolveEnv) (fuel : Nat) :
    List PdfObject → List Nat → POutcome (List Nat)
  | [], acc => .ok acc
  | s :: rest, acc =>
    match POutcome.unwrapOr "unwrap of stream data" (try_into_binary env fuel s) with
    | .ok d => contents_fold env fuel rest (acc ++ d)
    | .err e => .err e
    | .panic m => .panic m

/-- `Page::contents_as_binary` (page.rs 38–53): `contents` is the node's
`/Contents` object (`None` panics on `unwrap`); dispatch on
`get_data_type().unwrap()`: an object array concatenates the elements'
binary data with no separator; `VecU8` (a BinaryStream or HexString) clones
its bytes; every other type — including a single ContentStream, whose data
type is `String` — returns `None`. -/
def contents_as_binary (env : ResolveEnv) (fuel : Nat) (contents : Option PdfObject) :
    POutcome (Option (List Nat)) :=
  match contents with
  | none => .panic "unwrap of page contents"
  | some obj =>
    match POutcome.unwrapOr "unwrap of data type" (get_data_type env fuel obj) with
    | .ok dt =>
      match dt with
      | .VecObjects =>
        match POutcome.unwrapOr "unwrap of contents array" (try_into_array env fuel obj) with
        | .ok arr =>
          POutcome.bind (contents_fold env fuel arr []) fun d => .ok (some d)
        | .err e => .err e
        | .panic m => .panic m
      | .VecU8 =>
        match POutcome.unwrapOr "unwrap of contents bytes" (try_into_binary env fuel obj) with
        | .ok d => .ok (some d)
        | .err e => .err e
        | .panic m => .panic m
      | _ => .ok none
    | .err e => .err e
    | .panic m => .panic m

/-! ## The cross-reference loader, from `src/pdf_doc/pdf_file/pdf_file.rs` -/

/-- `XrefType` of pdf_file.rs. -/
inductive XrefType where
  | Standard
  | Stream
  deriving DecidableEq, Repr

/-- `Parser::find_xref_start_and_type` (pdf_file.rs 134–161): seek to the
last byte; `assert_eq!` that the current line is `%%EOF` (a *panic* when it
is not, as is the `expect` on non-UTF-8); step to the prior line and parse
it as the `usize` offset (failures here are `ParsingError` *values*); step
again and `assert_eq!` the line is `startxref` (again a panic); then seek to
the offset and classify: the exact line `xref` is a classical table,
otherwise the line must be at least 7 bytes and end in `obj` (a
cross-reference stream), else a `ParsingError`. -/
def find_xref_start_and_type (r : Reader) : POutcome (Nat × XrefType) :=
  let r := r.seek (.fromEnd (-1))
  let line := r.peek_current_line
  if !utf8Valid line then .panic "Internal error: line not ascii"
  else if line ≠ strBytes "%%EOF" then .panic "assertion failed: %%EOF expected"
  else
    let r := (r.step_to_end_of_prior_line).1
    let offsetLine := r.peek_current_line
    if !utf8Valid offsetLine then .err .parsingError
    else
      match parse_usize offsetLine with
      | none => .err .parsingError
      | some xref_start =>
        let r := (r.step_to_end_of_prior_line).1
        let sxLine := r.peek_current_line
        if !utf8Valid sxLine then .panic "Internal error: line not ascii"
        else if sxLine ≠ strBytes "startxref" then .panic "assertion failed: startxref expected"
        else
          let r := r.seek (.start xref_start)
          let headLine := r.peek_current_line
          if headLine == strBytes "xref" then .ok (xref_start, .Standard)
          else if headLine.length < 7 then .err .parsingError
          else if headLine.drop (headLine.length - 3) == strBytes "obj" then
            .ok (xref_start, .Stream)
          else .err .parsingError

/-- Parse every component of an xref subsection header with
`parse::<u32>`, failing if any component fails (the `collect` over
`Result`). -/
def parseAllU32 : List (List Nat) → Option (List Nat)
  | [] => some []
  | w :: rest =>
    match parse_u32 w, parseAllU32 rest with
    | some v, some vs => some (v :: vs)
    | _, _ => none

/-- The `loop` of `Parser::process_standard_xref_table` (pdf_file.rs
183–239).  Each iteration reads and trims a line; `line.chars().last()
.unwrap()` panics on an empty line; a line not ending in `n`/`f` is
`trailer` (stop) or a `first_id count` subsection header; otherwise it is a
20-byte entry whose first number is the offset (`usize`) and second the
generation (`u32`), recorded for `n`, pushed to the free list for `f`. -/
def process_standard_xref_table_loop (fuel : Nat) (r : Reader)
    (index_map : List (ObjectId × Nat)) (free_objects : List Nat)
    (obj_number objects_to_go : Nat) : POutcome (List (ObjectId × Nat) × Reader) :=
  match fuel with
  | 0 => .err .outOfFuel
  | fuel + 1 =>
    let rd := r.read_current_line
    let line := trimBytes rd.1
    let r := rd.2
    match line.getLast? with
    | none => .panic "unwrap of last char of empty xref line"
    | some lastC =>
      if !(lastC == 110 || lastC == 102) then
        if line == strBytes "trailer" then .ok (index_map, r)
        else
          match parseAllU32 (splitWs line) with
          | none => .err .parsingError
          | some comps =>
            if comps.length ≠ 2 then .err .parsingError
            else if objects_to_go ≠ 0 then .err .parsingError
            else
              process_standard_xref_table_loop fuel r index_map free_objects
                (comps.getD 0 0) (comps.getD 1 0)
      else
        if objects_to_go == 0 then .ok (index_map, r)
        else
          let comps := splitWs line
          if comps.length ≠ 3 then .err .parsingError
          else
            match parse_usize (comps.getD 0 []), parse_u32 (comps.getD 1 []) with
            | some first_number, some second_number =>
              if comps.getD 2 [] == strBytes "n" then
                process_standard_xref_table_loop fuel r
                  (idInsert index_map ⟨obj_number, second_number⟩ first_number)
                  free_objects (obj_number + 1) (objects_to_go - 1)
              else if comps.getD 2 [] == strBytes "f" then
                process_standard_xref_table_loop fuel r index_map
                  (free_objects ++ [first_number]) (obj_number + 1) (objects_to_go - 1)
              else .err .parsingError
            | _, _ => .err .parsingError

/-- `Parser::process_standard_xref_table` (pdf_file.rs 183–239): seek to the
table, consume the `xref` line (the consuming read sits inside a
`debug_assert_eq!`, so this models the debug build, the configuration the
repository's tests run), then run the subsection loop. -/
def process_standard_xref_table (fuel : Nat) (r : Reader) (start_index : Nat) :
    POutcome (List (ObjectId × Nat) × Reader) :=
  let r := r.seek (.start start_index)
  let r := (r.read_current_line).2
  process_standard_xref_table_loop fuel r [] [] 0 0

/-- The backwards search loop of `Parser::get_standard_trailer` (pdf_file.rs
164–181): from the last line, walk upwards until a line trims to `trailer`,
then parse the object starting at the next line (any failure chained into
`ParsingError`); reaching position 0 without finding it is an error. -/
def get_standard_trailer_loop (env : ResolveEnv)
    (dec : PdfMap → List Nat → POutcome PdfObject) (pfuel : Nat) :
    Nat → Reader → POutcome PdfObject
  | 0, _ => .err .outOfFuel
  | fuel + 1, r =>
    let line := trimBytes r.peek_current_line
    if line == strBytes "trailer" then
      let r := r.step_to_start_of_next_line
      match chainErrParsing (parse_object_at env dec pfuel r r.cursor) with
      | .ok res => .ok res.1
      | .err e => .err e
      | .panic m => .panic m
    else if r.cursor == 0 then .err .parsingError
    else get_standard_trailer_loop env dec pfuel fuel (r.step_to_end_of_prior_line).1

/-- `Parser::get_standard_trailer` (pdf_file.rs 164–181). -/
def get_standard_trailer (env : ResolveEnv)
    (dec : PdfMap → List Nat → POutcome PdfObject) (fuel : Nat) (r : Reader) :
    POutcome PdfObject :=
  get_standard_trailer_loop env dec fuel fuel (r.seek (.fromEnd (-1)))

/-- `Parser::process_xref_stream` (pdf_file.rs 241–243): a stub — it always
returns `Err(ParsingError("Not implemented"))`, parsing nothing. -/
def process_xref_stream (_start_index : Nat) :
    POutcome (List (ObjectId × Nat) × PdfObject) :=
  .err .parsingError

/-- The `Parser` value built by `create_pdf_from_file`: its trailer and the
id→offset index installed into the cache (the cache itself starts empty). -/
structure ParserModel where
  trailer : Option PdfObject
  index : List (ObjectId × Nat)

/-- `Parser::create_pdf_from_file` (pdf_file.rs 104–132): read the file,
locate the cross-reference data, then either process a classical table and
find its trailer, or — for a cross-reference stream — call
`process_xref_stream`, which is unimplemented and always fails, so `open`
returns an error for every file whose `startxref` offset leads to an
indirect object.  (`env` and `dec` stand for the resolver handle and the
stream-decode step exactly as in `parse_object_at`; file I/O is modelled by
passing the file's bytes.) -/
def create_pdf_from_file (env : ResolveEnv)
    (dec : PdfMap → List Nat → POutcome PdfObject) (fuel : Nat)
    (bytes : List Nat) : POutcome ParserModel :=
  let reader : Reader := ⟨bytes, 0⟩
  POutcome.bind (find_xref_start_and_type reader) fun st =>
    match st.2 with
    | .Standard =>
      POutcome.bind (process_standard_xref_table fuel reader st.1) fun xr =>
        POutcome.bind (get_standard_trailer env dec fuel xr.2) fun trailer =>
          .ok ⟨some trailer, xr.1⟩
    | .Stream =>
      POutcome.bind (process_xref_stream st.1) fun pr =>
        .ok ⟨some pr.2, pr.1⟩

/-! ## Concrete instances used by the theorems below -/

/-- Stream-decode oracle for parser runs whose input contains no `stream`
keyword: it is never invoked on the inputs below, so its value is
irrelevant. -/
def decUnused : PdfMap → List Nat → POutcome PdfObject := fun _ _ => .err .testingError

/-- The bytes of the indirect object `5 0 obj 6 0 R endobj` whose body is a
bare indirect reference (claim C7's example). -/
def c7bytes : List Nat := strBytes "5 0 obj 6 0 R endobj "

/-- A resolver context whose only entry, object (5,0), is an uncompressed
object at offset 0 of `c7bytes`; the parse entry point runs the embedded
parser there, as the spec's `parse_uncompressed_object_at` does.  This
concrete parse resolves nothing reentrantly (the input has no stream whose
`/Length` would need the resolver), so it returns the cache unchanged. -/
def c7ctx : ResolverCtx :=
  ⟨[(⟨5, 0⟩, .Uncompressed 0)],
   fun ix cache =>
     (match parse_object_at none decUnused 60 ⟨c7bytes, 0⟩ ix with
      | .ok p => .ok p.1
      | .err e => .err e
      | .panic m => .panic m,
      cache),
   fun _ cache => (.err .referenceError, cache)⟩

/-- A resolver context for C9's counterexample, first scenario: object
(1,0) is compressed inside parent (2,0); the parent parses successfully
(with no reentrant resolution) but to a plain dictionary, not an object
stream, so retrieving (1,0) fails *after* the parent has been cached. -/
def c9ctx : ResolverCtx :=
  ⟨[(⟨1, 0⟩, .Compressed ⟨2, 0⟩ 0), (⟨2, 0⟩, .Uncompressed 7)],
   fun _ cache => (.ok (.Actual (.Dictionary [])), cache),
   fun _ cache => (.err .parsingError, cache)⟩

/-- A resolver context for C9's counterexample, second scenario — the
reentrant `/Length` path of spec §4.4/§4.7: object (4,0) is an uncompressed
stream object at offset 0 whose parse first resolves its indirect `/Length`,
object (9,0) stored at offset 30, through the resolver — caching the parsed
integer 12 — and then fails (say, EOF before the declared stream bytes).
The entry point at offset 0 performs exactly the cache insertion that
reentry through `retrieve_object_by_ref` would perform before its own
failure; the entry point at offset 30 is the `/Length` parse itself. -/
def c9lctx : ResolverCtx :=
  ⟨[(⟨4, 0⟩, .Uncompressed 0), (⟨9, 0⟩, .Uncompressed 30)],
   fun ix cache =>
     if ix = 0 then
       (.err .parsingError, idInsert cache ⟨9, 0⟩ (.Actual (.NumberInt 12)))
     else if ix = 30 then (.ok (.Actual (.NumberInt 12)), cache)
     else (.err .referenceError, cache),
   fun _ cache => (.err .referenceError, cache)⟩

/-- A resolver context for C9's witness: object (3,0) is uncompressed at
offset 4 and its parse fails with a filter error, resolving nothing
reentrantly. -/
def c9uctx : ResolverCtx :=
  ⟨[(⟨3, 0⟩, .Uncompressed 4)],
   fun _ cache => (.err .filterError, cache),
   fun _ cache => (.err .filterError, cache)⟩

/-- An object was produced by a successful run of one of the two parse entry
points of the resolver's context (from some cache state). -/
def parsedOk (ctx : ResolverCtx) (o : PdfObject) : Prop :=
  (∃ ix c c', ctx.parseU ix c = (.ok o, c')) ∨ (∃ ix c c', ctx.parseC ix c = (.ok o, c'))

/-- The cache discipline the parse entry points observe: any binding found
in the cache they return either was already in the cache they were given or
holds a successfully parsed object.  This is exactly the property that
reentrant resolution maintains when it goes through
`retrieve_object_by_ref` itself (`resolver_entries_from_parses` below shows
the resolver preserves it), and it is assumed of the abstracted entry
points where a theorem needs it. -/
def oracles_cache_only_parses (ctx : ResolverCtx) : Prop :=
  (∀ (ix : Nat) (cache : Cache) (id' : ObjectId) (o : PdfObject),
    idLookup (ctx.parseU ix cache).2 id' = some o →
    idLookup cache id' = some o ∨ parsedOk ctx o)
  ∧ (∀ (ix : Nat) (cache : Cache) (id' : ObjectId) (o : PdfObject),
    idLookup (ctx.parseC ix cache).2 id' = some o →
    idLookup cache id' = some o ∨ parsedOk ctx o)

/-! ## Helper lemmas -/

theorem try_into_binary_binaryStream (env : ResolveEnv) (fuel : Nat) (a : PdfMap) (d : List Nat) :
    try_into_binary env fuel (.Actual (.BinaryStream a d)) = .ok d := by
  cases fuel <;> rfl

theorem get_data_type_array (env : ResolveEnv) (fuel : Nat) (l : List PdfObject) :
    get_data_type env fuel (.Actual (.Array l)) = .ok .VecObjects := by
  cases fuel <;> rfl

theorem get_data_type_binaryStream (env : ResolveEnv) (fuel : Nat) (a : PdfMap) (d : List Nat) :
    get_data_type env fuel (.Actual (.BinaryStream a d)) = .ok .VecU8 := by
  cases fuel <;> rfl

theorem try_into_array_array (env : ResolveEnv) (fuel : Nat) (l : List PdfObject) :
    try_into_array env fuel (.Actual (.Array l)) = .ok l := by
  cases fuel <;> rfl

/-- The concatenation loop of `contents_as_binary` over binary streams
appends the payloads in order with no separator. -/
theorem contents_fold_binary (env : ResolveEnv) (fuel : Nat)
    (ds : List (PdfMap × List Nat)) (acc : List Nat) :
    contents_fold env fuel (ds.map fun p => .Actual (.BinaryStream p.1 p.2)) acc
      = .ok (acc ++ (ds.map Prod.snd).flatten) := by
  induction ds generalizing acc with
  | nil => simp [contents_fold]
  | cons p rest ih =>
    simp [contents_fold, try_into_binary_binaryStream, POutcome.unwrapOr, ih]

/-- Lookup after a HashMap insert. -/
theorem idLookup_idInsert {α : Type} (m : List (ObjectId × α)) (k q : ObjectId) (v : α) :
    idLookup (idInsert m k v) q = if k = q then some v else idLookup m q := by
  induction m with
  | nil => by_cases h : k = q <;> simp [idInsert, idLookup, h]
  | cons e rest ih =>
    obtain ⟨k', v'⟩ := e
    by_cases hk : k = q <;> by_cases hk' : k' = k <;> by_cases hq : k' = q <;>
      simp_all [idInsert, idLookup]

/-- A retrieve of an id that is absent from the location index fails before
either parse entry point runs, so the cache is left exactly as it was. -/
theorem retrieve_unknown_cache_unchanged (ctx : ResolverCtx) (fuel : Nat)
    (cache : Cache) (id : ObjectId)
    (hl : idLookup ctx.indexMap id = none) :
    (retrieve_object_by_ref ctx fuel cache id).2 = cache := by
  cases fuel with
  | zero => simp [retrieve_object_by_ref]
  | succ fuel =>
    cases hc : idLookup cache id with
    | some o1 => simp [retrieve_object_by_ref, hc]
    | none => simp [retrieve_object_by_ref, hc, hl]

/-- Every binding found in the cache after a resolver call either was
already there or holds a successfully parsed object — error outcomes are
never cached.  Proven by simultaneous induction for
`retrieve_object_by_ref` and `try_into_object_stream_r`, assuming the parse
entry points observe the same discipline for the entries their reentrant
resolutions add (`oracles_cache_only_parses`). -/
theorem resolver_entries_from_parses (fuel : Nat) :
    (∀ (ctx : ResolverCtx), oracles_cache_only_parses ctx →
      ∀ (cache : Cache) (id id' : ObjectId) (o : PdfObject),
      idLookup (retrieve_object_by_ref ctx fuel cache id).2 id' = some o →
      idLookup cache id' = some o ∨ parsedOk ctx o)
    ∧ (∀ (ctx : ResolverCtx), oracles_cache_only_parses ctx →
      ∀ (cache : Cache) (obj : PdfObject) (id' : ObjectId) (o : PdfObject),
      idLookup (try_into_object_stream_r ctx fuel cache obj).2 id' = some o →
      idLookup cache id' = some o ∨ parsedOk ctx o) := by
  induction fuel with
  | zero =>
    refine ⟨?_, ?_⟩
    · intro ctx _hctx cache id id' o h
      simp [retrieve_object_by_ref] at h
      exact Or.inl h
    · intro ctx _hctx cache obj id' o h
      cases obj with
      | Reference rid =>
        simp [try_into_object_stream_r] at h
        exact Or.inl h
      | Actual d =>
        cases d <;> simp [try_into_object_stream_r] at h <;> exact Or.inl h
  | succ fuel ih =>
    obtain ⟨ihR, ihT⟩ := ih
    refine ⟨?_, ?_⟩
    · intro ctx hctx cache id id' o h
      cases hc : idLookup cache id with
      | some o1 =>
        simp [retrieve_object_by_ref, hc] at h
        exact Or.inl h
      | none =>
        cases hl : idLookup ctx.indexMap id with
        | none =>
          simp [retrieve_object_by_ref, hc, hl] at h
          exact Or.inl h
        | some loc =>
          cases loc with
          | Uncompressed ix =>
            cases hp : ctx.parseU ix cache with
            | mk rp c1 =>
              have hchainU : ∀ o' : PdfObject, idLookup c1 id' = some o' →
                  idLookup cache id' = some o' ∨ parsedOk ctx o' := by
                intro o' h1
                exact hctx.1 ix cache id' o' (by rw [hp]; exact h1)
              cases rp with
              | ok o2 =>
                simp [retrieve_object_by_ref, hc, hl, hp] at h
                rw [idLookup_idInsert] at h
                by_cases hid : id = id'
                · simp [hid] at h
                  exact Or.inr (Or.inl ⟨ix, cache, c1, by rw [hp, h]⟩)
                · simp [hid] at h
                  exact hchainU o h
              | err e2 =>
                simp [retrieve_object_by_ref, hc, hl, hp] at h
                exact hchainU o h
              | panic m =>
                simp [retrieve_object_by_ref, hc, hl, hp] at h
                exact hchainU o h
          | Compressed pid ix =>
            cases hr : retrieve_object_by_ref ctx fuel cache pid with
            | mk rp c1 =>
              have hchain1 : ∀ o' : PdfObject, idLookup c1 id' = some o' →
                  idLookup cache id' = some o' ∨ parsedOk ctx o' := by
                intro o' h1
                exact ihR ctx hctx cache pid id' o' (by rw [hr]; exact h1)
              cases rp with
              | ok pobj =>
                cases ht : try_into_object_stream_r ctx fuel c1 pobj with
                | mk rt c2 =>
                  have hchain2 : ∀ o' : PdfObject, idLookup c2 id' = some o' →
                      idLookup cache id' = some o' ∨ parsedOk ctx o' := by
                    intro o' h2
                    rcases ihT ctx hctx c1 pobj id' o' (by rw [ht]; exact h2) with h3 | h3
                    · exact hchain1 o' h3
                    · exact Or.inr h3
                  cases rt with
                  | ok subIndex =>
                    cases hs : idLookup subIndex id with
                    | none =>
                      simp [retrieve_object_by_ref, hc, hl, hr, ht, hs] at h
                      exact hchain2 o h
                    | some six =>
                      cases hp : ctx.parseC six c2 with
                      | mk rp2 c3 =>
                        have hchainC : ∀ o' : PdfObject, idLookup c3 id' = some o' →
                            idLookup cache id' = some o' ∨ parsedOk ctx o' := by
                          intro o' h3
                          rcases hctx.2 six c2 id' o' (by rw [hp]; exact h3) with h4 | h4
                          · exact hchain2 o' h4
                          · exact Or.inr h4
                        cases rp2 with
                        | ok o2 =>
                          simp [retrieve_object_by_ref, hc, hl, hr, ht, hs, hp] at h
                          rw [idLookup_idInsert] at h
                          by_cases hid : id = id'
                          · simp [hid] at h
                            exact Or.inr (Or.inr ⟨six, c2, c3, by rw [hp, h]⟩)
                          · simp [hid] at h
                            exact hchainC o h
                        | err e2 =>
                          simp [retrieve_object_by_ref, hc, hl, hr, ht, hs, hp] at h
                          exact hchainC o h
                        | panic m =>
                          simp [retrieve_object_by_ref, hc, hl, hr, ht, hs, hp] at h
                          exact hchainC o h
                  | err e2 =>
                    simp [retrieve_object_by_ref, hc, hl, hr, ht] at h
                    exact hchain2 o h
                  | panic m =>
                    simp [retrieve_object_by_ref, hc, hl, hr, ht] at h
                    exact hchain2 o h
              | err e2 =>
                simp [retrieve_object_by_ref, hc, hl, hr] at h
                exact hchain1 o h
              | panic m =>
                simp [retrieve_object_by_ref, hc, hl, hr] at h
                exact hchain1 o h
    · intro ctx hctx cache obj id' o h
      cases obj with
      | Actual d =>
        cases d <;> simp [try_into_object_stream_r] at h <;> exact Or.inl h
      | Reference rid =>
        cases hr : retrieve_object_by_ref ctx fuel cache rid with
        | mk rp c1 =>
          have hchain1 : ∀ o' : PdfObject, idLookup c1 id' = some o' →
              idLookup cache id' = some o' ∨ parsedOk ctx o' := by
            intro o' h1
            exact ihR ctx hctx cache rid id' o' (by rw [hr]; exact h1)
          cases rp with
          | ok o1 =>
            have h2 : idLookup (try_into_object_stream_r ctx fuel c1 o1).2 id' = some o := by
              simpa [try_into_object_stream_r, hr] using h
            rcases ihT ctx hctx c1 o1 id' o h2 with h3 | h3
            · exact hchain1 o h3
            · exact Or.inr h3
          | err e2 =>
            simp [try_into_object_stream_r, hr] at h
            exact hchain1 o h
          | panic m =>
            simp [try_into_object_stream_r, hr] at h
            exact hchain1 o h

/-- The concrete reentrant-`/Length` context observes the parse-entry-point
cache discipline: the only entry its failing parse adds, the resolved
`/Length` object (9,0) ↦ 12, is itself a successful parse (the entry point
at offset 30). -/
theorem c9lctx_oracles_ok : oracles_cache_only_parses c9lctx := by
  constructor
  · intro ix cache id' o h
    by_cases h0 : ix = 0
    · subst h0
      simp [c9lctx] at h
      rw [idLookup_idInsert] at h
      by_cases h9 : (⟨9, 0⟩ : ObjectId) = id'
      · simp [h9] at h
        exact Or.inr (Or.inl ⟨30, [], [], by rw [← h]; rfl⟩)
      · simp [h9] at h
        exact Or.inl h
    · by_cases h30 : ix = 30
      · subst h30
        simp only [c9lctx] at h
        exact Or.inl h
      · simp only [c9lctx, if_neg h0, if_neg h30] at h
        exact Or.inl h
  · intro ix cache id' o h
    exact Or.inl h

/-- A successful retrieve caches the returned object under the requested
id. -/
theorem retrieve_ok_cached (ctx : ResolverCtx) (fuel : Nat) (cache : Cache)
    (id : ObjectId) (o : PdfObject)
    (h : (retrieve_object_by_ref ctx fuel cache id).1 = .ok o) :
    idLookup (retrieve_object_by_ref ctx fuel cache id).2 id = some o := by
  cases fuel with
  | zero => simp [retrieve_object_by_ref] at h
  | succ fuel =>
    cases hc : idLookup cache id with
    | some o' =>
      have heq : retrieve_object_by_ref ctx (fuel + 1) cache id = (.ok o', cache) := by
        simp [retrieve_object_by_ref, hc]
      rw [heq] at h ⊢
      simp at h ⊢
      rw [← h]
      exact hc
    | none =>
      cases hl : idLookup ctx.indexMap id with
      | none => simp [retrieve_object_by_ref, hc, hl] at h
      | some loc =>
        cases loc with
        | Uncompressed ix =>
          cases hp : ctx.parseU ix cache with
          | mk rp c1 =>
            cases rp with
            | ok o2 =>
              simp [retrieve_object_by_ref, hc, hl, hp] at h ⊢
              rw [idLookup_idInsert]
              simp [h]
            | err e => simp [retrieve_object_by_ref, hc, hl, hp] at h
            | panic m => simp [retrieve_object_by_ref, hc, hl, hp] at h
        | Compressed pid ix =>
          cases hr : retrieve_object_by_ref ctx fuel cache pid with
          | mk rp c1 =>
            cases rp with
            | ok pobj =>
              cases ht : try_into_object_stream_r ctx fuel c1 pobj with
              | mk rt c2 =>
                cases rt with
                | ok subIndex =>
                  cases hs : idLookup subIndex id with
                  | none => simp [retrieve_object_by_ref, hc, hl, hr, ht, hs] at h
                  | some six =>
                    cases hp : ctx.parseC six c2 with
                    | mk rp2 c3 =>
                      cases rp2 with
                      | ok o2 =>
                        simp [retrieve_object_by_ref, hc, hl, hr, ht, hs, hp] at h ⊢
                        rw [idLookup_idInsert]
                        simp [h]
                      | err e => simp [retrieve_object_by_ref, hc, hl, hr, ht, hs, hp] at h
                      | panic m => simp [retrieve_object_by_ref, hc, hl, hr, ht, hs, hp] at h
                | err e => simp [retrieve_object_by_ref, hc, hl, hr, ht] at h
                | panic m => simp [retrieve_object_by_ref, hc, hl, hr, ht] at h
            | err e => simp [retrieve_object_by_ref, hc, hl, hr] at h
            | panic m => simp [retrieve_object_by_ref, hc, hl, hr] at h

/-! ## Claim theorems -/

/-- C1 (code bug in the source): the claim says a `startxref` offset that
begins an indirect object is parsed as a cross-reference stream and `open`
succeeds; but `Parser::process_xref_stream` is a stub returning
`ParsingError("Not implemented")`, so whenever `find_xref_start_and_type`
classifies the target as `XrefType::Stream`, `create_pdf_from_file` fails
with a `ParsingError` — `open` never succeeds on such files. -/
theorem c1_open_on_xref_stream_fails (env : ResolveEnv)
    (dec : PdfMap → List Nat → POutcome PdfObject) (fuel : Nat)
    (bytes : List Nat) (s : Nat)
    (h : find_xref_start_and_type ⟨bytes, 0⟩ = .ok (s, .Stream)) :
    create_pdf_from_file env dec fuel bytes = .err .parsingError := by
  simp [create_pdf_from_file, h, POutcome.bind, process_xref_stream]

/-- C1 witness: a concrete file whose `startxref` offset points at
`1 0 obj`, classified as a cross-reference stream; opening it fails. -/
theorem c1_open_on_xref_stream_fails_witness :
    find_xref_start_and_type ⟨strBytes "1 0 obj\nstartxref\n0\n%%EOF", 0⟩ = .ok (0, .Stream)
    ∧ create_pdf_from_file none decUnused 10 (strBytes "1 0 obj\nstartxref\n0\n%%EOF")
        = .err .parsingError :=
  ⟨rfl, c1_open_on_xref_stream_fails none decUnused 10 _ 0 rfl⟩

/-- C2 (code bug in the source): completing `true` pushes Boolean true and
`null` pushes Null, exactly as claimed — `[true null]` parses to the array
`[Boolean true, Null]` — but completing `false` maps to `PDFKeyword::False`,
which the keyword dispatch leaves unhandled ("Unrecognized keyword"), so
`[false]` aborts with a ParsingError instead of yielding Boolean false. -/
theorem c2_false_keyword_unrecognized :
    parse_object_at none decUnused 50 ⟨strBytes "[true null]", 0⟩ 0
      = .ok (.Actual (.Array [.Actual (.Boolean true), .Actual .Null]),
             ⟨strBytes "[true null]", 11⟩)
    ∧ parse_object_at none decUnused 50 ⟨strBytes "[false]", 0⟩ 0 = .err .parsingError :=
  ⟨rfl, rfl⟩

/-- C3 (code bug in the source): the claim says a hex-string token stores
the byte sequence obtained by decoding hex-digit pairs with odd-length
padding, so that `<A>` yields the byte 0xA0 = 160; but
`flush_buffer_to_object` stores the *raw digit characters* (its decode is
the source's `TODO: ADD PADDING`), so `[<A>]` parses to a HexString whose
payload is the single byte 65 (the ASCII code of `A`), not 160. -/
theorem c3_hex_string_stores_raw_digits :
    parse_object_at none decUnused 50 ⟨strBytes "[<A>]", 0⟩ 0
      = .ok (.Actual (.Array [.Actual (.HexString [65])]), ⟨strBytes "[<A>]", 5⟩)
    ∧ ([65] : List Nat) ≠ [160] :=
  ⟨rfl, by decide⟩

/-- C4 (code bug in the source): the claim says `\t` (and `\n \r \b \f`)
emit the C control bytes, unknown escapes pass the byte through, and
`\CR`, `\LF`, `\CRLF` emit nothing.  The CharString escape arm instead
matches the literal bytes 15 and 12 (not CR = 13 / LF = 10 — an
octal/decimal slip, contradicting its own comments) and its catch-all
*drops* the escaped byte: `[(\t)]` parses to the empty string instead of a
tab, and `[(a\<CR><LF>b)]` parses to `a`, LF, `b` — the escaped CR is
dropped but the LF survives as a literal byte instead of the claimed empty
continuation. -/
theorem c4_string_escapes_dropped :
    parse_object_at none decUnused 50 ⟨strBytes "[(\\t)]", 0⟩ 0
      = .ok (.Actual (.Array [.Actual (.CharString [])]), ⟨strBytes "[(\\t)]", 6⟩)
    ∧ parse_object_at none decUnused 50 ⟨strBytes "[(a\\\r\nb)]", 0⟩ 0
      = .ok (.Actual (.Array [.Actual (.CharString [97, 10, 98])]),
             ⟨strBytes "[(a\\\r\nb)]", 9⟩) :=
  ⟨rfl, rfl⟩

/-- C5 (code bug in the source): the claim says a complete five-character
group decodes to the four bytes of its base-85 value, so `!!!!#` (value 2)
followed by the terminator decodes to `[0, 0, 0, 2]`.  The output loop of
`_parse_ascii_85_group` instead computes `place = value.pow(exp)` — raising
the group *value* to the exponent instead of 256 — over only three
iterations, producing `[0, 1, 0]` (three wrong bytes instead of four; small
group values even divide by zero, and the terminator recognition reads one
byte past `~>`). -/
theorem c5_ascii85_group_decodes_wrong :
    apply_ascii_85 (strBytes "!!!!#~>>") = .ok [0, 1, 0]
    ∧ ([0, 1, 0] : List Nat) ≠ [0, 0, 0, 2] :=
  ⟨rfl, by decide⟩

/-- C6 counterexample: a `/Contents` array of two binary streams `A` and
`B` concatenates to `AB` — bytes `[65, 66]`, not the claimed `[65, 32, 66]`
with a whitespace separator; and a single *content* stream (the common case
for page contents, whose data type is `String`) returns `none` rather than
its decoded bytes. -/
theorem c6_counterexample_no_separator_inserted :
    contents_as_binary none 5 (some (.Actual (.Array
        [.Actual (.BinaryStream [] [65]), .Actual (.BinaryStream [] [66])])))
      = .ok (some [65, 66])
    ∧ (some [65, 66] : Option (List Nat)) ≠ some [65, 32, 66]
    ∧ contents_as_binary none 5 (some (.Actual (.ContentStream [] [66, 84, 10]))) = .ok none :=
  ⟨rfl, by decide, rfl⟩

/-- C6 (amended): for a Page whose `/Contents` is an array of binary
streams, `contents_as_binary` returns the concatenation of their payloads
in array order with **no** separator byte inserted; for a single binary
stream it returns exactly that stream's bytes.  (Content-stream elements
make the accessor panic and a single content stream yields `none`, per the
counterexample.) -/
theorem c6_contents_concatenation_amended (env : ResolveEnv) (fuel : Nat)
    (ds : List (PdfMap × List Nat)) (a0 : PdfMap) (d0 : List Nat) :
    contents_as_binary env fuel
        (some (.Actual (.Array (ds.map fun p => .Actual (.BinaryStream p.1 p.2)))))
      = .ok (some (ds.map Prod.snd).flatten)
    ∧ contents_as_binary env fuel (some (.Actual (.BinaryStream a0 d0))) = .ok (some d0) := by
  constructor
  · simp [contents_as_binary, get_data_type_array, try_into_array_array,
      POutcome.unwrapOr, contents_fold_binary, POutcome.bind]
  · simp [contents_as_binary, get_data_type_binaryStream, try_into_binary_binaryStream,
      POutcome.unwrapOr]

/-- C7 counterexample: parsing the indirect object `5 0 obj 6 0 R endobj`
returns the bare Reference (6,0) — `make_object_from_object_buffer` hands
back the body unchecked — and resolving (5,0) through the cache therefore
returns an Object with `is_reference() == true`, falsifying the claimed
invariant at exactly the claim's own example. -/
theorem c7_counterexample_resolved_reference :
    parse_object_at none decUnused 60 ⟨c7bytes, 0⟩ 0
      = .ok (.Reference ⟨6, 0⟩, ⟨c7bytes, 21⟩)
    ∧ (retrieve_object_by_ref c7ctx 3 [] ⟨5, 0⟩).1 = .ok (.Reference ⟨6, 0⟩)
    ∧ PdfObject.is_reference (.Reference ⟨6, 0⟩) = true :=
  ⟨rfl, rfl, rfl⟩

/-- C7 (amended): resolution returns the parsed indirect-object body
unchanged: for any buffer `[id, gen, v]` with integer id and gen,
`make_object_from_object_buffer` returns `v` as-is with no Reference check,
so the resolved object is a Reference exactly when the body is a bare
indirect reference, and `is_reference() == false` holds only otherwise. -/
theorem c7_body_returned_unchecked_amended (env : ResolveEnv) (fuel : Nat)
    (a b : Int) (v : PdfObject) :
    make_object_from_object_buffer env fuel
      [.Actual (.NumberInt a), .Actual (.NumberInt b), v] = .ok v := by
  cases fuel <;> rfl

/-- C8 counterexample: opening a file whose tail lacks `%%EOF` *panics*
(the `assert_eq!` in `find_xref_start_and_type`) instead of returning a
MalformedTrailer-class error value, and resolving a Reference whose
resolver has been dropped *panics* (the `expect` on `Weak::upgrade` in
`PdfObjectReference::get`) instead of returning an error value. -/
theorem c8_counterexample_panics :
    (create_pdf_from_file none decUnused 10 (strBytes "hello world")).isPanic = true
    ∧ (reference_get none ⟨7, 3⟩).isPanic = true :=
  ⟨rfl, rfl⟩

/-- C8 (amended): only the integer-offset line of the trailer tail fails as
an error value (`ParsingError`); a tail whose `%%EOF` or `startxref` line is
missing makes `open` panic through `assert_eq!`, and resolving a Reference
whose resolver has been dropped panics through `expect`. -/
theorem c8_trailer_failures_amended :
    create_pdf_from_file none decUnused 10 (strBytes "startxref\nabc\n%%EOF")
      = .err .parsingError
    ∧ (create_pdf_from_file none decUnused 10 (strBytes "AAA\n123\n%%EOF")).isPanic = true
    ∧ (reference_get none ⟨1, 0⟩).isPanic = true :=
  ⟨rfl, rfl, rfl⟩

/-- C9 counterexample, falsifying "the resolver's cache is left unchanged"
on both failure paths.  Compressed: retrieving id (1,0), stored inside
parent (2,0), fails — the parent parses to a plain dictionary, not an
object stream — yet the successfully parsed parent has been inserted.
Uncompressed (the reentrant `/Length` path of spec §4.4/§4.7): retrieving
id (4,0) fails with a parse error, yet the `/Length` object (9,0) that the
failed parse resolved reentrantly through the resolver has been inserted. -/
theorem c9_counterexample_parent_cached_on_failure :
    (retrieve_object_by_ref c9ctx 5 [] ⟨1, 0⟩).1 = .err .unavailableType
    ∧ (retrieve_object_by_ref c9ctx 5 [] ⟨1, 0⟩).2 = [(⟨2, 0⟩, .Actual (.Dictionary []))]
    ∧ ([(⟨2, 0⟩, PdfObject.Actual (.Dictionary []))] : Cache) ≠ ([] : Cache)
    ∧ (retrieve_object_by_ref c9lctx 5 [] ⟨4, 0⟩).1 = .err .parsingError
    ∧ (retrieve_object_by_ref c9lctx 5 [] ⟨4, 0⟩).2 = [(⟨9, 0⟩, .Actual (.NumberInt 12))]
    ∧ ([(⟨9, 0⟩, PdfObject.Actual (.NumberInt 12))] : Cache) ≠ ([] : Cache) :=
  ⟨rfl, ⟨rfl, ⟨fun h => List.noConfusion h, ⟨rfl, ⟨rfl, fun h => List.noConfusion h⟩⟩⟩⟩⟩

/-- C9 (amended): the resolver never caches an error outcome.  A failed
resolve of an id absent from the location index fails before any parse and
leaves the cache fully unchanged; a failed parse — uncompressed or
compressed — may leave behind entries for *other* objects successfully
resolved during it (a reentrantly resolved prerequisite such as an indirect
`/Length`, or a successfully parsed parent object stream), but, provided
the parse entry points observe the cache discipline that reentry through
the resolver itself maintains (`oracles_cache_only_parses`), every entry
ever added to the cache holds a successfully parsed object, never an error
outcome; and on success the parsed object is cached under the requested
id. -/
theorem c9_no_error_caching_amended (ctx : ResolverCtx) (fuel : Nat)
    (cache : Cache) (id : ObjectId) (hctx : oracles_cache_only_parses ctx) :
    (∀ e : ErrKind, (retrieve_object_by_ref ctx fuel cache id).1 = .err e →
      idLookup ctx.indexMap id = none →
      (retrieve_object_by_ref ctx fuel cache id).2 = cache)
    ∧ (∀ (id' : ObjectId) (o : PdfObject), idLookup cache id' = none →
        idLookup (retrieve_object_by_ref ctx fuel cache id).2 id' = some o →
        parsedOk ctx o)
    ∧ (∀ o : PdfObject, (retrieve_object_by_ref ctx fuel cache id).1 = .ok o →
        idLookup (retrieve_object_by_ref ctx fuel cache id).2 id = some o) := by
  refine ⟨?_, ?_, ?_⟩
  · intro e _he hl
    exact retrieve_unknown_cache_unchanged ctx fuel cache id hl
  · intro id' o hnone hsome
    rcases (resolver_entries_from_parses fuel).1 ctx hctx cache id id' o hsome with h | h
    · rw [hnone] at h
      cases h
    · exact h
  · intro o ho
    exact retrieve_ok_cached ctx fuel cache id o ho

/-- C9 witness: in the reentrant-`/Length` context, retrieving the unknown
id (8,8) fails and leaves the concrete empty cache unchanged (first
conjunct), and the entry the failed retrieve of (4,0) left behind is a
successfully parsed object (second conjunct). -/
theorem c9_no_error_caching_amended_witness :
    (retrieve_object_by_ref c9lctx 1 [] ⟨8, 8⟩).2 = ([] : Cache)
    ∧ parsedOk c9lctx (.Actual (.NumberInt 12)) :=
  ⟨(c9_no_error_caching_amended c9lctx 1 [] ⟨8, 8⟩ c9lctx_oracles_ok).1
     .referenceError rfl rfl,
   (c9_no_error_caching_amended c9lctx 5 [] ⟨4, 0⟩ c9lctx_oracles_ok).2.1
     ⟨9, 0⟩ (.Actual (.NumberInt 12)) rfl rfl⟩

/-- C10 (confirmed): `try_to_index(i)` on an Array object of length at most
`i` panics (out-of-bounds `Vec` indexing) instead of returning an error
through the accessor's error channel, and for `i` strictly below the length
it returns the i-th element. -/
theorem c10_try_to_index_out_of_range_panics (env : ResolveEnv) (fuel : Nat)
    (vec : List PdfObject) (i : Nat) :
    (vec.length ≤ i →
      try_to_index env fuel (.Actual (.Array vec)) i = .panic "index out of bounds")
    ∧ (∀ h : i < vec.length,
      try_to_index env fuel (.Actual (.Array vec)) i = .ok (vec.get ⟨i, h⟩)) := by
  constructor
  · intro hle
    cases fuel <;> simp [try_to_index, Nat.not_lt.mpr hle]
  · intro h
    cases fuel <;> simp [try_to_index, h]

/-- C10 witness: on the one-element array `[Null]`, index 1 panics and
index 0 returns Null. -/
theorem c10_try_to_index_out_of_range_panics_witness :
    try_to_index none 1 (.Actual (.Array [.Actual .Null])) 1 = .panic "index out of bounds"
    ∧ try_to_index none 1 (.Actual (.Array [.Actual .Null])) 0 = .ok (.Actual .Null) :=
  ⟨(c10_try_to_index_out_of_range_panics none 1 [.Actual .Null] 1).1 (by decide),
   (c10_try_to_index_out_of_range_panics none 1 [.Actual .Null] 0).2 (by decide)⟩

end PdfParser
